import Mathlib

/-
Verification of the vscope metadata/image pipeline (src/vscope/vscope.py)
against its natural-language specification.

The embedding models parsed JSON values, Python dict semantics (first-match
association lookup, `dict.update` as last-batch-wins per key), the Image
entity construction, the pagination planner `Grid._fetch_media_urls`,
`Grid._grab_json`, the synchronous single-page branch of
`Grid.download_metadata`, and `Image.cache_image_file`.

Machine integers are modelled as Nat/Int; the Python float ceiling
`int(math.ceil(total / float(page_size)))` is modelled as exact natural
ceiling division, which agrees with the source for totals inside the
float-exact range.
-/

namespace VScope

/-- A decoded JSON value, as produced by `response.json()` in the source.
Numbers are modelled as integers (all numeric fields the program touches are
integral counts/ids). -/
inductive JValue : Type where
  | null : JValue
  | str : String → JValue
  | num : Int → JValue
  | obj : List (String × JValue) → JValue
  | arr : List JValue → JValue

/-- A decoded JSON object, i.e. a Python dict: an association list keyed by
strings.  Lookup is first-match, mirroring the unique-key invariant of real
Python dicts. -/
abbrev Store : Type := List (String × JValue)

/-- Python `d[k]` / `d.get(k)` membership-and-value lookup on a dict. -/
def alookup {α : Type} (k : String) : List (String × α) → Option α
  | [] => none
  | p :: rest => if p.1 = k then some p.2 else alookup k rest

/-- One entry of the updated dict: an entry of the old dict keeps its key
and takes the incoming value when the incoming dict has one. -/
def updateEntry {α : Type} (u : List (String × α)) (p : String × α) : String × α :=
  match alookup p.1 u with
  | some v => (p.1, v)
  | none => p

/-- Python `d.update(u)`: every key of `u` ends up mapped to `u`'s value,
keys of `d` absent from `u` keep `d`'s value.  Rendered canonically as
"rewrite the entries of `d` whose key occurs in `u`, then append the
entries of `u` whose key is new". -/
def dictUpdate {α : Type} (d u : List (String × α)) : List (String × α) :=
  d.map (updateEntry u) ++ u.filter (fun p => (alookup p.1 d).isNone)

/-! ## Python string rendering

`'{} {}'.format(a, b)` renders each argument with `str()`.  For the JSON
scalars the program formats this is: `None` for null, the characters of a
string, the decimal digits of an integer, and the container repr for
dicts/lists (the fields actually formatted — make, model, subdomain,
identifier, width — are always scalars or null in well-formed responses). -/

/-- A single-quote character, used by the Python repr of strings. -/
def squote : String := (Char.ofNat 39).toString

mutual

/-- Python `repr` of a decoded JSON value. -/
def pyRepr : JValue → String
  | JValue.null => "None"
  | JValue.str s => squote ++ s ++ squote
  | JValue.num n => toString n
  | JValue.obj fs => "\x7b" ++ pyReprFields fs ++ "\x7d"
  | JValue.arr xs => "[" ++ pyReprList xs ++ "]"

/-- Comma-separated `repr` of a dict's fields. -/
def pyReprFields : List (String × JValue) → String
  | [] => ""
  | [p] => squote ++ p.1 ++ squote ++ ": " ++ pyRepr p.2
  | p :: q :: rest =>
      squote ++ p.1 ++ squote ++ ": " ++ pyRepr p.2 ++ ", "
        ++ pyReprFields (q :: rest)

/-- Comma-separated `repr` of a list's elements. -/
def pyReprList : List JValue → String
  | [] => ""
  | [v] => pyRepr v
  | v :: w :: rest => pyRepr v ++ ", " ++ pyReprList (w :: rest)

end

/-- Python `str()` of a decoded JSON value, as used by `str.format`. -/
def pyStr : JValue → String
  | JValue.str s => s
  | v => pyRepr v

/-! ## Image entity model (class `Image`) -/

/-- Image.top_level_attributes: the raw-document keys copied verbatim into
the flattened entry (absent keys map to null via `details.get(k, None)`). -/
def top_level_attributes : List String :=
  ["upload_date", "is_featured", "height", "width", "description", "tags",
   "permalink", "responsive_url", "_id", "is_video", "grid_name",
   "perma_subdomain", "site_id"]

/-- Image.supplementary_attributes_to_flatten: output field name paired with
(nested container key, nested field key).  Note the source reads the `iso`
output field from the container key `"ios"`. -/
def supplementary_attributes_to_flatten : List (String × String × String) :=
  [("iso", "image_meta", "ios"),
   ("model", "image_meta", "model"),
   ("make", "image_meta", "make"),
   ("preset", "preset", "short_name"),
   ("preset_bg_color", "preset", "color")]

/-- The value `Image._flatten_supplementary_attributes` produces for one
output field: found when the container key maps to an object holding the
nested key, otherwise null (a present non-object container never occurs in
the responses modelled here). -/
def flattened_value (raw : Store) (first_lvl_key second_lvl_key : String) : JValue :=
  match alookup first_lvl_key raw with
  | some (JValue.obj d) =>
      match alookup second_lvl_key d with
      | some v => v
      | none => JValue.null
  | _ => JValue.null

/-- Image._flatten_supplementary_attributes: one flattened field per row of
the declarative table. -/
def flatten_supplementary_attributes (raw : Store) : Store :=
  supplementary_attributes_to_flatten.map
    (fun t => (t.1, flattened_value raw t.2.1 t.2.2))

/-- The `self.details` dict built by `Image.__init__`: top-level attributes
(absent ones null), overlaid with the flattened supplementary attributes,
then the synthesized `camera` field `'{} {}'.format(make, model)`. -/
def image_details (raw : Store) : Store :=
  let details0 := top_level_attributes.map
    (fun k => (k, (alookup k raw).getD JValue.null))
  let details1 := dictUpdate details0 (flatten_supplementary_attributes raw)
  let camera := JValue.str
    (pyStr ((alookup "make" details1).getD JValue.null) ++ " "
      ++ pyStr ((alookup "model" details1).getD JValue.null))
  dictUpdate details1 [("camera", camera)]

/-- The effective `self.cached_image_width`:
`cached_image_width if cached_image_width else self.width` — a constructor
argument of `None` or `0` is falsy and falls back to the document's own
`width` field. -/
def cached_width (requested : Option Int) (docWidth : JValue) : JValue :=
  match requested with
  | some n => if n = 0 then docWidth else JValue.num n
  | none => docWidth

/-- `self.local_filename = 'images/{}/{}-{}.jpg'.format(perma_subdomain,
_id, cached_image_width)` as a function of the raw document and the
requested width. -/
def local_filename (raw : Store) (requested : Option Int) : String :=
  let d := image_details raw
  "images/" ++ pyStr ((alookup "perma_subdomain" d).getD JValue.null) ++ "/"
    ++ pyStr ((alookup "_id" d).getD JValue.null) ++ "-"
    ++ pyStr (cached_width requested ((alookup "width" d).getD JValue.null))
    ++ ".jpg"

/-- requests' `codes.all_good`, the only status the source tests against. -/
def all_good : Nat := 200

/-- Image.cache_image_file: the content of the file at `local_filename`
after the call, given its prior content (`none` = absent) and the HTTP
response.  The body is streamed to the file only on status 200; any other
status leaves the filesystem untouched and raises nothing. -/
def cache_image_file (status : Nat) (body : List Nat) (fs : Option (List Nat)) :
    Option (List Nat) :=
  if status = all_good then some body else fs

/-! ## Grid: HTTP layer and pagination planner -/

/-- An HTTP response: its status code and its parsed JSON object body (the
metadata endpoints always answer with a JSON object). -/
structure Response : Type where
  status : Nat
  body : List (String × JValue)

/-- Grid._grab_json: the parsed body on status 200, otherwise an empty
dict — no error raised. -/
def grab_json (r : Response) : List (String × JValue) :=
  if r.status = all_good then r.body else []

/-- The `media_url_formatter` lambda of `Grid._fetch_media_urls`. -/
def media_url_formatter (token uid : String) (page size : Nat) : String :=
  "https://vsco.co/ajxp/" ++ token ++ "/2.0/medias?site_id=" ++ uid
    ++ "&page=" ++ toString page ++ "&size=" ++ toString size

/-- `int(math.ceil(t / float(size)))` for naturals, modelled exactly. -/
def pyCeilDiv (t size : Nat) : Nat := (t + size - 1) / size

/-- Grid._fetch_media_urls: probes page 1 at size 1, reads `total` from the
probe body (`media_meta['total']` — a missing key raises KeyError, a
non-integer raises in the arithmetic below), computes
`page_limit_max = ceil(total/size)` and
`n_pages = min(page_limit, page_limit_max) if page_limit else
page_limit_max` (so a falsy limit — `None` or `0` — is no limit), and
returns the page URLs for pages `1..n_pages`. -/
def fetch_media_urls (token uid : String) (env : String → Response)
    (page_limit : Option Nat) (page_size : Nat) : Except String (List String) :=
  let media_meta_url := media_url_formatter token uid 1 1
  let media_meta := grab_json (env media_meta_url)
  match alookup "total" media_meta with
  | none => Except.error "KeyError: total"
  | some (JValue.num t) =>
      if page_size = 0 then Except.error "ZeroDivisionError"
      else
        let page_limit_max := pyCeilDiv t.toNat page_size
        let n_pages :=
          match page_limit with
          | some l => if l = 0 then page_limit_max else min l page_limit_max
          | none => page_limit_max
        Except.ok ((List.range' 1 n_pages).map
          (fun page => media_url_formatter token uid page page_size))
  | some _ => Except.error "TypeError: total is not a number"

/-! ## download_metadata: merge and persistence

The store file is modelled as the sequence of serialized JSON documents its
bytes concatenate (`List Store`); a well-formed store file holds exactly
one document.  `load_json`/`dump_json` live in the repository's `shared`
module, which is not under src/. -/

/-- Modelled from the spec: `load_json` (missing `shared` module) wraps
`json.load`, which reads the whole handle and parses its content — it
succeeds exactly when the content is one serialized document, and raises
ValueError on an empty file or on trailing data after the first document. -/
def load_json : List Store → Option Store
  | [d] => some d
  | _ => none

/-- Modelled from the spec: `list_of_dicts_to_dict(entries,
promote_to_key='_id')` (missing `shared` module) keys each raw entry by its
`_id` identifier field, building the batch mapping identifier → entry. -/
def list_of_dicts_to_dict (entries : List Store) : Store :=
  entries.map (fun e =>
    (match alookup "_id" e with
     | some (JValue.str i) => i
     | _ => "", JValue.obj e))

/-- The object entries of a JSON array (the `media` field's value). -/
def jarrObjs : JValue → List Store
  | JValue.arr xs =>
      xs.filterMap (fun v =>
        match v with
        | JValue.obj d => some d
        | _ => none)
  | _ => []

/-- Modelled from the spec: the batch a `ThreadMetadataRequest` worker
(missing `threads` module) pushes for one page response — the page's
entries keyed by identifier, with a non-2xx (here: non-200, via
`Grid._grab_json`) response contributing an empty batch, silently. -/
def worker_batch (r : Response) : Store :=
  list_of_dicts_to_dict
    (jarrObjs ((alookup "media" (grab_json r)).getD (JValue.arr [])))

/-- Modelled from the spec: the pooled path of `Grid.download_metadata`
(`ThreadMetadataRequest` workers plus the single `ThreadJSONWriter`
aggregator, missing `threads` module): the store file is loaded first
(malformed treated as empty), each page's batch is merged on top with
last-batch-wins semantics, and the aggregator persists the entire store. -/
def pooled_path (urls : List String) (env : String → Response)
    (file : Option (List Store)) : List Store × Store :=
  let initial :=
    match file with
    | some docs => (load_json docs).getD []
    | none => []
  let final := (urls.map (fun u => worker_batch (env u))).foldl dictUpdate initial
  ([final], final)

/-- The synchronous single-page branch of `Grid.download_metadata` (taken
when at most one URL was planned): fetch `urls[0]`, read its `media` list
(KeyError when absent, e.g. for the empty dict a non-200 fetch yields), key
it by `_id`, then open the store file with mode `'r+w'` when it exists
(read/write, content kept) or `'w'` (truncate) when not, load the cached
store (ValueError → empty), merge the batch on top, and `dump_json` the
merge.  `json.load` consumes the whole handle, so with mode `'r+w'` the
dump is written after the existing content: the result keeps the old
documents and appends the merged one.  Returns the file content and the
in-memory store `self._metadata`. -/
def single_page_path (url : String) (env : String → Response)
    (file : Option (List Store)) : Except String (List Store × Store) :=
  let json_response := grab_json (env url)
  match alookup "media" json_response with
  | none => Except.error "KeyError: media"
  | some mediaVal =>
      let media_dict := list_of_dicts_to_dict (jarrObjs mediaVal)
      let content :=
        match file with
        | some docs => docs
        | none => []
      let cached_meta :=
        match file with
        | some docs => (load_json docs).getD []
        | none => []
      let merged := dictUpdate cached_meta media_dict
      Except.ok (content ++ [merged], merged)

/-- Grid.download_metadata: more than one planned URL takes the pooled
path; otherwise `urls[0]` is fetched synchronously — an empty plan raises
IndexError there. -/
def download_metadata (urls : List String) (env : String → Response)
    (file : Option (List Store)) : Except String (List Store × Store) :=
  if urls.length > 1 then Except.ok (pooled_path urls env file)
  else
    match urls with
    | [] => Except.error "IndexError: list index out of range"
    | url :: _ => single_page_path url env file

/-! ## Concrete fixtures used by the claim instances -/

/-- A sample raw media entry with identifier "a". -/
def sample_entry : Store := [("_id", JValue.str "a"), ("x", JValue.num 1)]

/-- The well-formed one-entry store holding `sample_entry`, keyed by its
identifier — the content a first successful run persists. -/
def sample_store : Store := [("a", JValue.obj sample_entry)]

/-- An environment whose every page response serves the unchanged one-entry
dataset `sample_entry`. -/
def sample_env : String → Response :=
  fun _ => ⟨200, [("media", JValue.arr [JValue.obj sample_entry])]⟩

/-! ## Dict lemmas -/

theorem alookup_append {α : Type} (k : String) (l₁ l₂ : List (String × α)) :
    alookup k (l₁ ++ l₂) =
      match alookup k l₁ with
      | some v => some v
      | none => alookup k l₂ := by
  induction l₁ with
  | nil => simp [alookup]
  | cons p rest ih =>
      by_cases h : p.1 = k
      · simp [alookup, h]
      · simp [alookup, h, ih]

theorem alookup_map_update {α : Type} (k : String) (d u : List (String × α)) :
    alookup k (d.map (updateEntry u)) =
      match alookup k d with
      | some v =>
          (match alookup k u with
           | some w => some w
           | none => some v)
      | none => none := by
  induction d with
  | nil => simp [alookup]
  | cons p rest ih =>
      by_cases h : p.1 = k
      · subst h
        cases hu : alookup p.1 u with
        | none => simp [alookup, updateEntry, hu]
        | some w => simp [alookup, updateEntry, hu]
      · cases hu : alookup p.1 u with
        | none => simp [alookup, updateEntry, hu, h, ih]
        | some w => simp [alookup, updateEntry, hu, h, ih]

theorem alookup_filter_of_none {α : Type} (k : String) (d u : List (String × α))
    (hd : alookup k d = none) :
    alookup k (u.filter (fun p => (alookup p.1 d).isNone)) = alookup k u := by
  induction u with
  | nil => simp [alookup]
  | cons p rest ih =>
      by_cases h : p.1 = k
      · subst h
        simp [alookup, hd, List.filter, ih]
      · cases hp : (alookup p.1 d).isNone with
        | true => simp [alookup, List.filter, hp, h, ih]
        | false => simp [alookup, List.filter, hp, h, ih]

theorem alookup_filter_of_some {α : Type} (k : String) (d u : List (String × α))
    (hd : (alookup k d).isSome) :
    alookup k (u.filter (fun p => (alookup p.1 d).isNone)) = none := by
  induction u with
  | nil => simp [alookup]
  | cons p rest ih =>
      by_cases h : p.1 = k
      · subst h
        have : (alookup p.1 d).isNone = false := by
          cases hx : alookup p.1 d with
          | none => rw [hx] at hd; simp [Option.isSome] at hd
          | some v => simp [Option.isNone, hx]
        simp [List.filter, this, ih]
      · cases hp : (alookup p.1 d).isNone with
        | true => simp [alookup, List.filter, hp, h, ih]
        | false => simp [alookup, List.filter, hp, h, ih]

/-- Characterisation of `dict.update`: the updated dict looks up to the
incoming value when present, else to the old value. -/
theorem alookup_dictUpdate {α : Type} (k : String) (d u : List (String × α)) :
    alookup k (dictUpdate d u) =
      match alookup k u with
      | some v => some v
      | none => alookup k d := by
  unfold dictUpdate
  rw [alookup_append, alookup_map_update]
  cases hd : alookup k d with
  | none =>
      rw [alookup_filter_of_none k d u hd]
      cases alookup k u <;> rfl
  | some v =>
      have hs : (alookup k d).isSome = true := by simp [hd]
      rw [alookup_filter_of_some k d u hs]
      cases alookup k u <;> rfl

theorem alookup_isSome_of_mem {α : Type} (p : String × α) (l : List (String × α))
    (hp : p ∈ l) : (alookup p.1 l).isSome := by
  induction l with
  | nil => cases hp
  | cons q rest ih =>
      by_cases h : q.1 = p.1
      · simp [alookup, h]
      · rcases List.mem_cons.mp hp with hp | hp
        · subst hp; exact absurd rfl h
        · simp [alookup, h, ih hp]

theorem alookup_eq_of_mem_nodup {α : Type} (p : String × α) (l : List (String × α))
    (hl : (l.map Prod.fst).Nodup) (hp : p ∈ l) : alookup p.1 l = some p.2 := by
  induction l with
  | nil => cases hp
  | cons q rest ih =>
      rcases List.nodup_cons.mp hl with ⟨hq, hrest⟩
      rcases List.mem_cons.mp hp with hp | hp
      · subst hp; simp [alookup]
      · have hne : q.1 ≠ p.1 := by
          intro he
          exact hq (he ▸ List.mem_map_of_mem Prod.fst hp)
        simp [alookup, hne, ih hrest hp]

theorem map_eq_self_of {α : Type} (l : List α) (f : α → α)
    (h : ∀ a ∈ l, f a = a) : l.map f = l := by
  induction l with
  | nil => rfl
  | cons a rest ih =>
      simp only [List.map_cons, h a (List.mem_cons_self a rest),
        ih (fun b hb => h b (List.mem_cons_of_mem a hb))]

theorem filter_eq_nil_of {α : Type} (l : List α) (f : α → Bool)
    (h : ∀ a ∈ l, f a = false) : l.filter f = [] := by
  induction l with
  | nil => rfl
  | cons a rest ih =>
      simp only [List.filter, h a (List.mem_cons_self a rest)]
      exact ih (fun b hb => h b (List.mem_cons_of_mem a hb))

/-! ## Claim theorems -/

/-- Claim C3: merging an incoming batch into an existing store is
last-batch-wins per key — every key of the batch maps to the batch's entry,
every other key keeps the existing store's entry — and merging the same
batch twice yields the same store as merging it once. -/
theorem merge_last_batch_wins (S B : Store) (hB : (B.map Prod.fst).Nodup) :
    (∀ k v, alookup k B = some v → alookup k (dictUpdate S B) = some v) ∧
    (∀ k, alookup k B = none → alookup k (dictUpdate S B) = alookup k S) ∧
    dictUpdate (dictUpdate S B) B = dictUpdate S B := by
  refine ⟨?_, ?_, ?_⟩
  · intro k v hk
    rw [alookup_dictUpdate, hk]
  · intro k hk
    rw [alookup_dictUpdate, hk]
  · have hfilter : B.filter (fun p => (alookup p.1 (dictUpdate S B)).isNone) = [] := by
      apply filter_eq_nil_of
      intro p hp
      have h1 : (alookup p.1 B).isSome := alookup_isSome_of_mem p B hp
      rw [alookup_dictUpdate]
      cases hx : alookup p.1 B with
      | none => rw [hx] at h1; simp at h1
      | some v => rfl
    have hmap : (dictUpdate S B).map (updateEntry B) = dictUpdate S B := by
      apply map_eq_self_of
      intro q hq
      rcases List.mem_append.mp hq with hq | hq
      · rcases List.mem_map.mp hq with ⟨p, hp, hpq⟩
        subst hpq
        cases hx : alookup p.1 B with
        | none => simp [updateEntry, hx]
        | some v => simp [updateEntry, hx]
      · have hqB : q ∈ B := (List.mem_filter.mp hq).1
        have hlook := alookup_eq_of_mem_nodup q B hB hqB
        simp [updateEntry, hlook]
    have hdef : dictUpdate (dictUpdate S B) B =
        (dictUpdate S B).map (updateEntry B)
        ++ B.filter (fun p => (alookup p.1 (dictUpdate S B)).isNone) := rfl
    rw [hdef, hmap, hfilter, List.append_nil]

/-- Claim C3 witness: the spec's own example — merging batch
`a: x 9, c: z 3` into store `a: x 1, b: y 2` maps `a` to the batch's
entry, and a second merge of the same batch changes nothing. -/
theorem merge_last_batch_wins_witness :
    alookup "a" (dictUpdate
        [("a", JValue.obj [("x", JValue.num 1)]), ("b", JValue.obj [("y", JValue.num 2)])]
        [("a", JValue.obj [("x", JValue.num 9)]), ("c", JValue.obj [("z", JValue.num 3)])])
      = some (JValue.obj [("x", JValue.num 9)]) ∧
    dictUpdate
        (dictUpdate
          [("a", JValue.obj [("x", JValue.num 1)]), ("b", JValue.obj [("y", JValue.num 2)])]
          [("a", JValue.obj [("x", JValue.num 9)]), ("c", JValue.obj [("z", JValue.num 3)])])
        [("a", JValue.obj [("x", JValue.num 9)]), ("c", JValue.obj [("z", JValue.num 3)])]
      = dictUpdate
          [("a", JValue.obj [("x", JValue.num 1)]), ("b", JValue.obj [("y", JValue.num 2)])]
          [("a", JValue.obj [("x", JValue.num 9)]), ("c", JValue.obj [("z", JValue.num 3)])] :=
  ⟨(merge_last_batch_wins
      [("a", JValue.obj [("x", JValue.num 1)]), ("b", JValue.obj [("y", JValue.num 2)])]
      [("a", JValue.obj [("x", JValue.num 9)]), ("c", JValue.obj [("z", JValue.num 3)])]
      (by decide)).1 "a" (JValue.obj [("x", JValue.num 9)]) rfl,
   (merge_last_batch_wins
      [("a", JValue.obj [("x", JValue.num 1)]), ("b", JValue.obj [("y", JValue.num 2)])]
      [("a", JValue.obj [("x", JValue.num 9)]), ("c", JValue.obj [("z", JValue.num 3)])]
      (by decide)).2.2⟩

/-- Claim C4: the claim asserts the flattened `iso` field equals the raw
document's `image_meta.iso` value; the source instead reads the container
key "ios", so a document whose `image_meta` holds `iso: 400` flattens
`iso` to null, while one holding the misspelled `ios: 400` flattens `iso`
to 400. -/
theorem flatten_iso_reads_ios_key :
    alookup "iso" (image_details [("image_meta", JValue.obj [("iso", JValue.num 400)])])
      = some JValue.null ∧
    alookup "iso" (image_details [("image_meta", JValue.obj [("ios", JValue.num 400)])])
      = some (JValue.num 400) ∧
    (some JValue.null ≠ some (JValue.num 400)) :=
  ⟨rfl, rfl, fun h => by cases h⟩

/-- Claim C5: a probe response whose parsed body lacks a `total` field —
in particular the empty dict `Grid._grab_json` produces for a non-200
probe — makes the pagination planner abort with a KeyError instead of
planning zero pages. -/
theorem missing_total_aborts (token uid : String) (env : String → Response)
    (lim : Option Nat) (page_size : Nat)
    (h : alookup "total" (grab_json (env (media_url_formatter token uid 1 1))) = none ∨
         (env (media_url_formatter token uid 1 1)).status ≠ 200) :
    fetch_media_urls token uid env lim page_size = Except.error "KeyError: total" := by
  have hnone : alookup "total" (grab_json (env (media_url_formatter token uid 1 1))) = none := by
    rcases h with h | h
    · exact h
    · simp [grab_json, all_good, h, alookup]
  simp only [fetch_media_urls, hnone]

/-- Claim C5 witness: a 404 probe (whose body would even carry a `total`)
is parsed as the empty dict and aborts the planner. -/
theorem missing_total_aborts_witness :
    fetch_media_urls "tok" "42" (fun _ => ⟨404, [("total", JValue.num 5)]⟩) none 1000
      = Except.error "KeyError: total" :=
  missing_total_aborts "tok" "42" (fun _ => ⟨404, [("total", JValue.num 5)]⟩) none 1000
    (Or.inr (by decide))

/-- Claim C7: an image download answered with a non-2xx status writes
nothing to the cache path and raises no error (the call is a total
function of the response), and starting from an absent file the cache file
exists afterwards only if the status was 2xx (the source writes only on
exactly 200). -/
theorem cache_image_file_non2xx_no_write (status : Nat) (body : List Nat)
    (h : ¬(200 ≤ status ∧ status < 300)) :
    (∀ fs, cache_image_file status body fs = fs) ∧
    ((cache_image_file status body none).isSome → 200 ≤ status ∧ status < 300) := by
  have hne : status ≠ all_good := by
    intro he
    rw [he] at h
    exact h (by constructor <;> decide)
  constructor
  · intro fs
    simp [cache_image_file, hne]
  · intro hs
    simp [cache_image_file, hne] at hs

/-- Claim C7 witness: a 404 download leaves the absent cache file absent. -/
theorem cache_image_file_non2xx_no_write_witness :
    cache_image_file 404 [7, 7] none = none :=
  (cache_image_file_non2xx_no_write 404 [7, 7] (by decide)).1 none

/-- Claim C9: a probe total of 0 makes the planner emit zero page URLs, and
`download_metadata` on the resulting empty URL list takes the synchronous
branch and raises IndexError at `urls[0]` instead of completing as a
no-op. -/
theorem zero_total_plan_empty_and_indexerror (token uid : String)
    (env env₂ : String → Response) (page_size : Nat) (hsize : page_size ≠ 0)
    (htotal : alookup "total" (grab_json (env (media_url_formatter token uid 1 1)))
      = some (JValue.num 0))
    (file : Option (List Store)) :
    fetch_media_urls token uid env none page_size = Except.ok [] ∧
    download_metadata [] env₂ file = Except.error "IndexError: list index out of range" := by
  constructor
  · have h0 : pyCeilDiv (Int.toNat 0) page_size = 0 := by
      unfold pyCeilDiv
      simp only [Int.toNat_zero, Nat.zero_add]
      exact Nat.div_eq_of_lt (Nat.sub_lt (Nat.pos_of_ne_zero hsize) one_pos)
    simp only [fetch_media_urls, htotal, hsize, if_false, h0]
    rfl
  · rfl

/-- Claim C9 witness: probe total 0 at page size 1000 plans no pages and
the empty plan raises IndexError. -/
theorem zero_total_plan_empty_and_indexerror_witness :
    fetch_media_urls "tok" "42" (fun _ => ⟨200, [("total", JValue.num 0)]⟩) none 1000
      = Except.ok [] ∧
    download_metadata [] (fun _ => ⟨200, [("total", JValue.num 0)]⟩) none
      = Except.error "IndexError: list index out of range" :=
  zero_total_plan_empty_and_indexerror "tok" "42"
    (fun _ => ⟨200, [("total", JValue.num 0)]⟩)
    (fun _ => ⟨200, [("total", JValue.num 0)]⟩) 1000 (by decide) rfl none

/-- Claim C10: the synthesized `camera` field of every constructed entry is
the string `str(make) ++ " " ++ str(model)` over the flattened make/model
values; when both are absent (no `image_meta` container) it is the literal
string "None None", not a null value. -/
theorem camera_always_formatted (raw : Store) :
    alookup "camera" (image_details raw) =
      some (JValue.str (pyStr (flattened_value raw "image_meta" "make") ++ " "
        ++ pyStr (flattened_value raw "image_meta" "model"))) ∧
    (alookup "image_meta" raw = none →
      alookup "camera" (image_details raw) = some (JValue.str "None None")) := by
  constructor
  · rfl
  · intro h
    have h1 : flattened_value raw "image_meta" "make" = JValue.null := by
      simp [flattened_value, h]
    have h2 : flattened_value raw "image_meta" "model" = JValue.null := by
      simp [flattened_value, h]
    calc alookup "camera" (image_details raw)
        = some (JValue.str (pyStr (flattened_value raw "image_meta" "make") ++ " "
            ++ pyStr (flattened_value raw "image_meta" "model"))) := rfl
      _ = some (JValue.str "None None") := by rw [h1, h2]; rfl

/-- Claim C10 witness: a raw document with no `image_meta` synthesizes the
camera label "None None". -/
theorem camera_always_formatted_witness :
    alookup "camera" (image_details [("_id", JValue.str "a")])
      = some (JValue.str "None None") :=
  (camera_always_formatted [("_id", JValue.str "a")]).2 rfl

/-- Claim C1: re-running the single-page download against the unchanged
one-entry dataset, with the store file already holding exactly the
serialized merge, does not rewrite the file: the merge itself is unchanged
(`sample_store`), but the file ends up holding the old document followed by
a second copy appended after it (mode `'r+w'` keeps the content and
`json.load` leaves the handle at EOF), so it is no longer a single valid
serialized mapping and the next run's load falls back to the empty store. -/
theorem single_page_rerun_appends_old_content :
    download_metadata ["page1"] sample_env (some [sample_store]) =
      Except.ok ([sample_store, sample_store], sample_store) ∧
    load_json [sample_store, sample_store] = none ∧
    ([sample_store, sample_store] : List Store).length ≠ 1 :=
  ⟨rfl, rfl, by decide⟩

/-- Claim C2 counterexample: at probe total 2500, page size 1000 and a
supplied page limit of 0 the claim demands
`min(ceil(2500/1000), 0) = 0` emitted descriptors, but the planner emits
3 — a falsy limit is not applied. -/
theorem page_limit_zero_not_capped :
    (fetch_media_urls "tok" "42" (fun _ => ⟨200, [("total", JValue.num 2500)]⟩)
        (some 0) 1000).map List.length = Except.ok 3 ∧
    min (pyCeilDiv 2500 1000) 0 = 0 ∧
    (3 : Nat) ≠ 0 :=
  ⟨rfl, rfl, by decide⟩

/-- Claim C2 (amended): with a successful probe reporting total `t` and a
nonzero page size, the planner emits exactly `ceil(t / page_size)` page
URLs when no limit, or a limit of 0, is supplied, and
`min(ceil(t / page_size), l)` for a supplied nonzero limit `l`; the URLs
are numbered 1..N in order. -/
theorem fetch_media_urls_page_count (token uid : String) (env : String → Response)
    (t : Int) (page_size : Nat) (lim : Option Nat) (hsize : page_size ≠ 0)
    (hprobe : alookup "total" (grab_json (env (media_url_formatter token uid 1 1)))
      = some (JValue.num t)) :
    ∃ urls, fetch_media_urls token uid env lim page_size = Except.ok urls ∧
      (lim = none → urls.length = pyCeilDiv t.toNat page_size) ∧
      (lim = some 0 → urls.length = pyCeilDiv t.toNat page_size) ∧
      (∀ l, lim = some l → l ≠ 0 →
        urls.length = min (pyCeilDiv t.toNat page_size) l) ∧
      (∀ i (hi : i < urls.length),
        urls[i] = media_url_formatter token uid (i + 1) page_size) := by
  have heq : fetch_media_urls token uid env lim page_size =
      Except.ok ((List.range' 1 (match lim with
        | some l => if l = 0 then pyCeilDiv t.toNat page_size
                    else min l (pyCeilDiv t.toNat page_size)
        | none => pyCeilDiv t.toNat page_size)).map
          (fun page => media_url_formatter token uid page page_size)) := by
    simp only [fetch_media_urls, hprobe, hsize, if_false]
  refine ⟨_, heq, ?_, ?_, ?_, ?_⟩
  · intro hl
    subst hl
    simp [List.length_range']
  · intro hl
    subst hl
    simp [List.length_range']
  · intro l hl hl0
    subst hl
    simp only [List.length_map, List.length_range', hl0, if_false]
    exact Nat.min_comm l (pyCeilDiv t.toNat page_size)
  · intro i hi
    rw [List.getElem_map, List.getElem_range']
    rw [Nat.add_comm, Nat.one_mul]

/-- Claim C2 witness: total 2500, page size 1000, supplied limit 2 — the
planner emits `min(ceil(2500/1000), 2) = 2` URLs. -/
theorem fetch_media_urls_page_count_witness :
    ∃ urls, fetch_media_urls "tok" "42" (fun _ => ⟨200, [("total", JValue.num 2500)]⟩)
        (some 2) 1000 = Except.ok urls ∧ urls.length = 2 := by
  obtain ⟨urls, h1, _, _, h4, _⟩ :=
    fetch_media_urls_page_count "tok" "42"
      (fun _ => ⟨200, [("total", JValue.num 2500)]⟩) 2500 1000 (some 2)
      (by decide) rfl
  refine ⟨urls, h1, ?_⟩
  rw [h4 2 rfl (by decide)]
  decide

/-- Claim C6 counterexample: the claim says every page-fetching path treats
a non-2xx response as an empty result and raises no error, but on the
single-page synchronous path a 404 page makes the run abort with a
KeyError on the missing `media` field. -/
theorem single_page_non2xx_raises_keyerror :
    download_metadata ["page1"] (fun _ => ⟨404, []⟩) none
      = Except.error "KeyError: media" ∧
    ∀ result : List Store × Store,
      download_metadata ["page1"] (fun _ => ⟨404, []⟩) none ≠ Except.ok result := by
  refine ⟨rfl, ?_⟩
  intro result h
  rw [show download_metadata ["page1"] (fun _ => ⟨404, []⟩) none
    = Except.error "KeyError: media" from rfl] at h
  cases h

/-- Claim C6 (amended): a non-2xx (non-200) page response is parsed by
`Grid._grab_json` as the empty dict, so the pooled-path worker batch for it
contributes zero entries without error; but the single-page synchronous
path of `download_metadata` then raises a KeyError on the missing `media`
field and aborts rather than continuing. -/
theorem non2xx_empty_and_single_page_aborts (r : Response) (h : r.status ≠ 200) :
    grab_json r = [] ∧
    worker_batch r = [] ∧
    (∀ env url file, env url = r →
      download_metadata [url] env file = Except.error "KeyError: media") := by
  have hg : grab_json r = [] := by simp [grab_json, all_good, h]
  refine ⟨hg, ?_, ?_⟩
  · simp [worker_batch, hg, jarrObjs, list_of_dicts_to_dict, alookup]
  · intro env url file henv
    have hd : download_metadata [url] env file = single_page_path url env file := rfl
    rw [hd]
    simp [single_page_path, henv, hg, alookup]

/-- Claim C6 witness: a 503 page whose body even carries a `media` list is
parsed as empty, and the single-page path aborts on it. -/
theorem non2xx_empty_and_single_page_aborts_witness :
    grab_json ⟨503, [("media", JValue.arr [])]⟩ = [] ∧
    download_metadata ["page1"] (fun _ => ⟨503, [("media", JValue.arr [])]⟩) none
      = Except.error "KeyError: media" := by
  obtain ⟨h1, _, h3⟩ :=
    non2xx_empty_and_single_page_aborts ⟨503, [("media", JValue.arr [])]⟩ (by decide)
  exact ⟨h1, h3 (fun _ => ⟨503, [("media", JValue.arr [])]⟩) "page1" none rfl⟩

/-- Claim C8 counterexample: with an explicitly requested width of 0 the
width argument is falsy, so the filename falls back to each document's own
`width` field — two raw documents agreeing on subdomain and identifier but
not on `width` get different cache paths for the same requested width. -/
theorem local_filename_zero_width_counterexample :
    alookup "perma_subdomain"
        [("perma_subdomain", JValue.str "s"), ("_id", JValue.str "i"),
         ("width", JValue.num 100)] =
      alookup "perma_subdomain"
        [("perma_subdomain", JValue.str "s"), ("_id", JValue.str "i"),
         ("width", JValue.num 200)] ∧
    alookup "_id"
        [("perma_subdomain", JValue.str "s"), ("_id", JValue.str "i"),
         ("width", JValue.num 100)] =
      alookup "_id"
        [("perma_subdomain", JValue.str "s"), ("_id", JValue.str "i"),
         ("width", JValue.num 200)] ∧
    local_filename
        [("perma_subdomain", JValue.str "s"), ("_id", JValue.str "i"),
         ("width", JValue.num 100)] (some 0) ≠
      local_filename
        [("perma_subdomain", JValue.str "s"), ("_id", JValue.str "i"),
         ("width", JValue.num 200)] (some 0) :=
  ⟨rfl, rfl, by decide⟩

/-- Claim C8 (amended): for a nonzero explicitly requested width, the local
cache filename is a pure function of subdomain, identifier and that width:
any two constructions agreeing on `perma_subdomain` and `_id` with the same
nonzero requested width compute equal filename strings (a requested width
of 0 is falsy and falls back to each document's own `width` field). -/
theorem local_filename_pure_function (raw₁ raw₂ : Store) (n : Int) (hn : n ≠ 0)
    (hsub : alookup "perma_subdomain" raw₁ = alookup "perma_subdomain" raw₂)
    (hid : alookup "_id" raw₁ = alookup "_id" raw₂) :
    local_filename raw₁ (some n) = local_filename raw₂ (some n) := by
  have h₁ : ∀ raw : Store, local_filename raw (some n) =
      "images/" ++ pyStr ((alookup "perma_subdomain" raw).getD JValue.null) ++ "/"
        ++ pyStr ((alookup "_id" raw).getD JValue.null) ++ "-"
        ++ pyStr (JValue.num n) ++ ".jpg" := by
    intro raw
    have hsubl : alookup "perma_subdomain" (image_details raw)
        = some ((alookup "perma_subdomain" raw).getD JValue.null) := rfl
    have hidl : alookup "_id" (image_details raw)
        = some ((alookup "_id" raw).getD JValue.null) := rfl
    simp [local_filename, hsubl, hidl, cached_width, hn]
  rw [h₁ raw₁, h₁ raw₂, hsub, hid]

/-- Claim C8 witness: two documents agreeing on subdomain and identifier
(but not on their own `width` field) get the same path at requested width
300. -/
theorem local_filename_pure_function_witness :
    local_filename
        [("perma_subdomain", JValue.str "s"), ("_id", JValue.str "i"),
         ("width", JValue.num 100)] (some 300) =
      local_filename
        [("perma_subdomain", JValue.str "s"), ("_id", JValue.str "i"),
         ("width", JValue.num 640)] (some 300) :=
  local_filename_pure_function
    [("perma_subdomain", JValue.str "s"), ("_id", JValue.str "i"),
     ("width", JValue.num 100)]
    [("perma_subdomain", JValue.str "s"), ("_id", JValue.str "i"),
     ("width", JValue.num 640)] 300 (by decide) rfl rfl

end VScope
